import Mathlib

/-!
Verification of the darksky-oregon-dashboard core against its specification.

The development shallowly embeds the relevant parts of the repository:
- the colour-binning engine (`shared/utils/data_processing.py`,
  `OregonSQMProcessor._add_color_map_column`),
- the ranking pipeline's data preparation (`shared/utils/visualizations.py`,
  `_prepare_chart_data`),
- the category configuration lookup (`shared/utils/configs.py`,
  `get_meas_type_config`),
- the Dash selection / viewport reducer callbacks (`dash_app/app.py`,
  `update_zoom_and_center`, `update_clicked_sites`, `_get_site_info_text`).

Machine floats appear only through ordering comparisons, so they are embedded
as rationals; a possible NaN (pandas missing value) is made explicit with the
`PFloat` type, whose comparisons follow IEEE semantics (every comparison with
NaN is false).
-/

/-- Embedding of a pandas float cell: either a missing value (NaN) or a
numeric value, represented as a rational. -/
inductive PFloat where
  | nan : PFloat
  | val (q : ℚ) : PFloat
deriving DecidableEq, Repr

/-- IEEE-style strict comparison used by pandas column filters: any comparison
involving NaN is false. -/
def PFloat.lt : PFloat → PFloat → Bool
  | PFloat.val a, PFloat.val b => decide (a < b)
  | _, _ => false

/-- Test for a missing value. -/
def PFloat.isNan : PFloat → Bool
  | PFloat.nan => true
  | PFloat.val _ => false

/-- One row of a colour-map CSV (e.g. `color_map_for_SQM_readings_clear_nights.csv`):
a bin threshold (the `colormap_bin_col` column, e.g. `brightness_mag_arcsec2`)
together with the `red`, `green`, `blue` components. -/
structure ColormapRow where
  threshold : ℚ
  red : ℤ
  green : ℤ
  blue : ℤ
deriving DecidableEq, Repr

/-- The rgba string built by `_add_color_map_column`:
the source formats it as rgba(red, green, blue, 1). -/
def rgba_string (r g b : ℤ) : String :=
  "rgba(" ++ toString r ++ ", " ++ toString g ++ ", " ++ toString b ++ ", 1)"

/-- Colour string of a colour-map row. -/
def rgba_of (r : ColormapRow) : String :=
  rgba_string r.red r.green r.blue

/-- Minimum of a pandas numeric series (`Series.min`), `none` on an empty series. -/
def q_min : List ℚ → Option ℚ
  | [] => none
  | x :: xs => some (xs.foldl min x)

/-- Maximum of a pandas numeric series (`Series.max`), `none` on an empty series. -/
def q_max : List ℚ → Option ℚ
  | [] => none
  | x :: xs => some (xs.foldl max x)

/-- The `above_bins` series of `OregonSQMProcessor._add_color_map_column`:
thresholds of the colormap rows whose threshold is strictly greater than the
value (a comparison that is false for a NaN value). -/
def above_bins_of (colormap_df : List ColormapRow) (value : PFloat) : List ℚ :=
  (colormap_df.filter fun r => PFloat.lt value (PFloat.val r.threshold)).map
    fun r => r.threshold

/-- The `site_color_bin` chosen by `_add_color_map_column`: the maximum
threshold when no bin lies strictly above the value, the minimum of
`above_bins` otherwise. -/
def site_color_bin_of (colormap_df : List ColormapRow) (value : PFloat) : Option ℚ :=
  if (above_bins_of colormap_df value).isEmpty then
    q_max (colormap_df.map fun r => r.threshold)
  else q_min (above_bins_of colormap_df value)

/-- Colour resolution of `_add_color_map_column` for a single row value: the
colour of the first colormap row whose threshold equals the chosen bin
(`.values[0]` in the source). The `none` result models the IndexError the
source would raise on an empty colormap table. -/
def bin_color_value (colormap_df : List ColormapRow) (value : PFloat) : Option String :=
  match site_color_bin_of colormap_df value with
  | none => none
  | some b =>
    (colormap_df.find? fun r => decide (r.threshold = b)).map rgba_of

/-- One data row as seen by the colour-binning step: its site name and the
entry of the `value_col` column used for colour binning. -/
structure DataRow where
  site_name : String
  value : PFloat
deriving DecidableEq, Repr

/-- Row-by-row colour assignment of `_add_color_map_column`: every row of the
data frame receives the colour of `bin_color_value` at its `value_col` entry. -/
def add_color_map_column (df : List DataRow) (colormap_df : List ColormapRow) :
    List (DataRow × Option String) :=
  df.map fun row => (row, bin_color_value colormap_df row.value)

/-- Spec-side definition (following the specification's words, for comparison
with `bin_color_value`): the first bin of the table whose threshold is
strictly greater than the value; in a table sorted by strictly increasing
thresholds this is the bin of the smallest threshold greater than the value. -/
def next_bin_row (T : List ColormapRow) (v : ℚ) : Option ColormapRow :=
  T.find? fun r => decide (v < r.threshold)

/-- Last element of a nonempty list given head and tail. -/
def lastD {α : Type} (x : α) : List α → α
  | [] => x
  | y :: ys => lastD y ys

/-- Spec-side definition: the bin the specification assigns to value `v` in the
table `t :: T` - the bin of the smallest threshold strictly greater than `v`,
or the last (maximum-threshold) bin when `v` is at or above every threshold. -/
def spec_bin_row (t : ColormapRow) (T : List ColormapRow) (v : ℚ) : ColormapRow :=
  match next_bin_row (t :: T) v with
  | some r => r
  | none => lastD t T

/-! Ranking pipeline data preparation (`_prepare_chart_data` in
`shared/utils/visualizations.py`). -/

/-- One row of the sites data frame as the ranking pipeline sees it: the
`site_name` entry (`none` models a missing value) and the numeric columns,
keyed by column name. A column absent from the table reads as missing. -/
structure ChartRow where
  site_name : Option String
  cols : List (String × PFloat)
deriving DecidableEq, Repr

/-- Read a numeric column of a row; an absent column reads as NaN. -/
def ChartRow.get (r : ChartRow) (c : String) : PFloat :=
  match r.cols.find? fun p => decide (p.1 = c) with
  | some p => p.2
  | none => PFloat.nan

/-- Sort key of a row for a column: the numeric value, with an arbitrary key
for a missing value (rows sorted by `_prepare_chart_data` never have one,
because `dropna` removes them first). -/
def keyQ (r : ChartRow) (c : String) : ℚ :=
  match ChartRow.get r c with
  | PFloat.val q => q
  | PFloat.nan => 0

/-- Insert an element into a list sorted by the boolean comparator. -/
def insertLe {α : Type} (le : α → α → Bool) (x : α) : List α → List α
  | [] => [x]
  | y :: ys => if le x y then x :: y :: ys else y :: insertLe le x ys

/-- Insertion sort by a boolean comparator. -/
def isortBy {α : Type} (le : α → α → Bool) : List α → List α
  | [] => []
  | x :: xs => insertLe le x (isortBy le xs)

/-- Embedding of `DataFrame.sort_values(y_col, ascending=ascending)` on one
key column. The pandas default algorithm (quicksort) orders rows by the key
and leaves the relative order of rows with equal keys implementation-defined;
we realise it with an insertion sort, one ordering the library is allowed to
return, and prove only key-order properties of it. -/
def sort_values (df : List ChartRow) (c : String) (ascending : Bool) : List ChartRow :=
  if ascending then isortBy (fun a b => decide (keyQ a c ≤ keyQ b c)) df
  else isortBy (fun a b => decide (keyQ b c ≤ keyQ a c)) df

/-- Embedding of `_prepare_chart_data`: drop the rows whose metric column or
site name is missing, then sort by the metric column - ascending exactly when
the metric column is `median_brightness_mag_arcsec2`, descending otherwise. -/
def prepare_chart_data (sites_df : List ChartRow) (y_col : String) : List ChartRow :=
  let chart_data := sites_df.filter fun r =>
    !(ChartRow.get r y_col).isNan && r.site_name.isSome
  let ascending := decide (y_col = "median_brightness_mag_arcsec2")
  sort_values chart_data y_col ascending

/-! Category configuration (`shared/utils/configs.py`). -/

/-- Tick configuration of a bar chart (`bar_chart_yicks` in the source). -/
structure BarChartTicks where
  tickmode : String
  tickvals : List ℚ
  ticktext : List String
deriving DecidableEq, Repr

/-- Bar chart configuration of a measurement type. -/
structure BarChartConfig where
  bar_chart_title : String
  bar_chart_y_col : String
  bar_chart_y_label : String
  bar_chart_yicks : BarChartTicks
deriving DecidableEq, Repr

/-- Scatter plot configuration shared by the brightness measurement types. -/
structure ScatterPlotConfig where
  scatter_plot_title : String
  scatter_x_col : String
  scatter_y_col : String
  scatter_x_label : String
  scatter_y_label : String
deriving DecidableEq, Repr

/-- Configuration record of one measurement type in `meas_type_dict`. -/
structure MeasTypeConfig where
  data_key : String
  Question_text : String
  map_text : String
  bar_chart : BarChartConfig
  scatter_plot : Option ScatterPlotConfig
deriving DecidableEq, Repr

/-- The `scatter_plot_configs` dictionary of the source. -/
def scatter_plot_configs : ScatterPlotConfig where
  scatter_plot_title := "Ranking metric vs Median Night Sky Brightness"
  scatter_x_col := "median_brightness_mag_arcsec2"
  scatter_y_col := "x_brighter_than_darkest_night_sky"
  scatter_x_label := "Median Night Sky Brightness <br> (mag/arcsec²)"
  scatter_y_label := "X-times brighter"

/-- The `meas_type_dict` configuration dictionary, transcribed entry by entry. -/
def meas_type_dict : List (String × MeasTypeConfig) :=
  [("clear_nights_brightness",
    { data_key := "clear_measurements"
      Question_text := "Clear Nights – where is the Night Sky most and least light polluted?"
      map_text := "Clear Nights - Light Pollution?"
      bar_chart :=
        { bar_chart_title := "Clear Nights - Ranking sites by how much brighter they are compared to our darkest night sky measurement site"
          bar_chart_y_col := "x_brighter_than_darkest_night_sky"
          bar_chart_y_label := "<--- Darker -------------------------------- Brighter --->"
          bar_chart_yicks :=
            { tickmode := "log"
              tickvals := [1, 2, 10, 20]
              ticktext := ["1", "2", "10", "20"] } }
      scatter_plot := some scatter_plot_configs }),
   ("cloudy_nights_brightness",
    { data_key := "cloudy_measurements"
      Question_text := "Cloudy Nights – where is the Night Sky most and least light polluted?"
      map_text := "Cloudy Nights - Light Pollution?"
      bar_chart :=
        { bar_chart_title := "Cloudy Nights - Ranking sites by how much brighter they are compared to our darkest night sky measurement site"
          bar_chart_y_col := "x_brighter_than_darkest_night_sky"
          bar_chart_y_label := "<--- Darker -------------------------------- Brighter --->"
          bar_chart_yicks :=
            { tickmode := "log"
              tickvals := [1, 10, 100, 1000]
              ticktext := ["1", "10", "100", "1000"] } }
      scatter_plot := some scatter_plot_configs }),
   ("long_term_trends",
    { data_key := "trends"
      Question_text := "Starry night skies – where are they disappearing or recovering?"
      map_text := "Starry Nights - Disappearing?"
      bar_chart :=
        { bar_chart_title := "Ranking sites by the rate of change in night sky brightness compared to a certified Dark Sky Park"
          bar_chart_y_col := "Rate_of_Change_vs_Prineville_Reservoir_State_Park"
          bar_chart_y_label := "<--- Slower ------------------- Faster --->"
          bar_chart_yicks :=
            { tickmode := "linear"
              tickvals := [0, 50, 100, 150]
              ticktext := ["0", "50", "100", "150"] } }
      scatter_plot := none }),
   ("milky_way_visibility",
    { data_key := "milky_way"
      Question_text := "Milky Way – where does it stand out best?"
      map_text := "Milky Way Visibility?"
      bar_chart :=
        { bar_chart_title := "Milky Way – Ranking sites by how well it stands out in the clear night sky."
          bar_chart_y_col := "ratio_index"
          bar_chart_y_label := "<--- Not visible --------------------------- Clearly visible --->"
          bar_chart_yicks :=
            { tickmode := "log"
              tickvals := [1, 6/5, 7/5, 8/5]
              ticktext := ["1", "1.2", "1.4", "1.6"] } }
      scatter_plot := none }),
   ("% clear nights",
    { data_key := "cloud_coverage"
      Question_text := "Cloudiness – where are the night skies most and least cloudy?"
      map_text := "Cloudiness?"
      bar_chart :=
        { bar_chart_title := "Cloudiness – Ranking sites by the percentage of clear, not cloudy, nighttime measurements."
          bar_chart_y_col := "percent_clear_night_samples_all_months"
          bar_chart_y_label := "<--- Cloudiest -------------------------------- Clearest --->"
          bar_chart_yicks :=
            { tickmode := "linear"
              tickvals := [0, 20, 40, 60, 80, 100]
              ticktext := ["0%", "20%", "40%", "60%", "80%", "100%"] } }
      scatter_plot := none })]

/-- The fixed enumerated set of measurement types, as the specification words
it: the keys of `meas_type_dict`. -/
def meas_type_keys : List String :=
  ["clear_nights_brightness", "cloudy_nights_brightness", "long_term_trends",
   "milky_way_visibility", "% clear nights"]

/-- Embedding of `get_meas_type_config`: validate the key against
`meas_type_dict` and raise a ValueError (`Except.error`) on an unknown key,
otherwise return the dictionary entry. -/
def get_meas_type_config (meas_type : String) : Except String MeasTypeConfig :=
  match meas_type_dict.find? fun p => decide (p.1 = meas_type) with
  | none => Except.error ("Invalid measurement type: " ++ meas_type)
  | some p => Except.ok p.2

/-- Success test for the configuration lookup. -/
def isOkE : Except String MeasTypeConfig → Bool
  | Except.ok _ => true
  | Except.error _ => false

/-! Selection and viewport state machine (`dash_app/app.py`). The Dash
callback context is embedded as an optional trigger identifier: `none` models
`not ctx.triggered`, `some tid` models a callback fired by the component with
id `tid`. A `none` payload models a falsy (absent, `None` or empty) Dash
property value. -/

/-- The `mapbox.center` entry of a relayout event: a dict that may carry
`lat` and `lon` keys (read with `.get` and a default in the source). -/
structure MapboxCenter where
  lat : Option ℚ
  lon : Option ℚ
deriving DecidableEq, Repr

/-- The `relayoutData` payload of a map interaction, with the key variants the
source inspects; `none` fields model keys that are absent or `None`. -/
structure RelayoutData where
  mapbox_zoom : Option ℚ
  map_zoom : Option ℚ
  mapbox_center : Option MapboxCenter
  mapbox_center_lat : Option ℚ
  mapbox_center_lon : Option ℚ
  map_center : Option (ℚ × ℚ)
deriving DecidableEq, Repr

/-- Zoom requested by a relayout event: `mapbox.zoom` first, then `map.zoom`,
falling back to the stored zoom (the `zoom = current_zoom` initialisation and
the two conditionals of `update_zoom_and_center`). -/
def relayout_zoom (rd : RelayoutData) (current_zoom : ℚ) : ℚ :=
  match rd.mapbox_zoom with
  | some z => z
  | none =>
    match rd.map_zoom with
    | some z => z
    | none => current_zoom

/-- Center requested by a relayout event: `mapbox.center` (per-key defaults
from the stored center), then the `mapbox.center.lat`/`mapbox.center.lon`
pair, then `map.center`, falling back to the stored center. -/
def relayout_center (rd : RelayoutData) (current_center : ℚ × ℚ) : ℚ × ℚ :=
  match rd.mapbox_center with
  | some c => (c.lat.getD current_center.1, c.lon.getD current_center.2)
  | none =>
    match rd.mapbox_center_lat, rd.mapbox_center_lon with
    | some la, some lo => (la, lo)
    | _, _ =>
      match rd.map_center with
      | some c => c
      | none => current_center

/-- Embedding of the `update_zoom_and_center` callback: returns the new
contents of the zoom store, the center store and the max-zoom-violation store.
A map interaction applies the requested zoom and center unless the requested
zoom exceeds 10, in which case the zoom is clamped to 10, the violation flag
is raised and the center reverts to the stored one; the refresh button resets
to the defaults (zoom 5, center (44.0, -121.0)); any other trigger leaves the
stores unchanged. -/
def update_zoom_and_center (trigger_id : Option String) (relayoutData : Option RelayoutData)
    (current_zoom : ℚ) (current_center : ℚ × ℚ) : ℚ × (ℚ × ℚ) × Bool :=
  match trigger_id with
  | none => (current_zoom, current_center, false)
  | some tid =>
    if tid = "oregon-map" then
      match relayoutData with
      | some rd =>
        let zoom := relayout_zoom rd current_zoom
        let center := relayout_center rd current_center
        if zoom > 10 then (10, current_center, true)
        else (zoom, center, false)
      | none => (current_zoom, current_center, false)
    else if tid = "refresh-btn" then (5, (44, -121), false)
    else (current_zoom, current_center, false)

/-- A map `clickData` payload: `points[0]['customdata']`, the list of site
names attached to the clicked marker (co-located sites share one marker). -/
structure MapClickData where
  customdata : List String
deriving DecidableEq, Repr

/-- A bar chart `clickData` payload: `points[0]['y']`, the clicked bar's site
name. -/
structure BarClickData where
  y : String
deriving DecidableEq, Repr

/-- A scatter plot `clickData` payload: `points[0]['hovertext']`, the clicked
point's site name. -/
structure ScatterClickData where
  hovertext : String
deriving DecidableEq, Repr

/-- Embedding of the `update_clicked_sites` callback: returns the new contents
of the clicked-sites store together with the reset `clickData` properties of
the map, the bar chart and the scatter plot (every branch clears all three to
`None`). A map click stores the clicked marker's site-name list, a bar or
scatter click stores the singleton of the clicked site, the refresh button
resets the store to `None`, and any other trigger keeps the current value. -/
def update_clicked_sites (trigger_id : Option String)
    (map_click : Option MapClickData) (bar_click : Option BarClickData)
    (scatter_click : Option ScatterClickData) (current_clicked : Option (List String)) :
    Option (List String) × Option MapClickData × Option BarClickData × Option ScatterClickData :=
  match trigger_id with
  | none => (current_clicked, none, none, none)
  | some tid =>
    if tid = "oregon-map" then
      match map_click with
      | some mc => (some mc.customdata, none, none, none)
      | none => (current_clicked, none, none, none)
    else if tid = "bar-chart" then
      match bar_click with
      | some bc => (some [bc.y], none, none, none)
      | none => (current_clicked, none, none, none)
    else if tid = "scatter-plot" then
      match scatter_click with
      | some sc => (some [sc.hovertext], none, none, none)
      | none => (current_clicked, none, none, none)
    else if tid = "refresh-btn" then (none, none, none, none)
    else (current_clicked, none, none, none)

/-- One row of the processed data frame as `_get_site_info_text` reads it:
the site name and the metric columns the detail block formats. -/
structure SiteRow where
  site_name : String
  DarkSkyCertified : String
  DarkSkyQualified : String
  x_brighter_than_darkest_night_sky : ℚ
  bortle_sky_level : ℚ
  median_brightness_mag_arcsec2 : ℚ
  median_linear_scale_flux_ratio : ℚ
  Rate_of_Change_vs_Prineville_Reservoir_State_Park : ℚ
  Regression_Line_Slope_x_10000 : ℚ
  Percent_Change_per_year : ℚ
  Number_of_Years_of_Data : ℚ
  ratio_index : ℚ
  percent_clear_night_samples_all_months : ℚ
deriving DecidableEq, Repr

/-- An element of the markdown detail block built by `_get_site_info_text`:
a bold site name (`html.B`), an inline status tag, or a paragraph
(`html.P`). -/
inductive InfoItem where
  | bold (s : String)
  | tag (s : String)
  | para (s : String)
deriving DecidableEq, Repr

/-- Number formatting of the detail block; the source renders two decimals,
we keep the exact rational text since only the block structure is at stake. -/
def fmt (q : ℚ) : String := toString q

/-- Detail block of one matched row, by measurement type, mirroring the
branches of `_get_site_info_text`. -/
def site_info_block (meas_type : String) (row : SiteRow) : List InfoItem :=
  [InfoItem.bold row.site_name] ++
  (if meas_type = "" ∨ meas_type = "clear_nights_brightness" then
    (if row.DarkSkyCertified = "YES" then [InfoItem.tag " - Dark Sky Certified"] else []) ++
    (if row.DarkSkyQualified = "YES" ∧ row.DarkSkyCertified = "NO" then
      [InfoItem.tag " - Dark Sky Qualified"] else []) ++
    [InfoItem.para "",
     InfoItem.para (fmt row.x_brighter_than_darkest_night_sky ++ "-times brighter than the darkest Night Sky"),
     InfoItem.para ("Bortle level: " ++ fmt row.bortle_sky_level),
     InfoItem.para ("Median Night Sky Brightness: " ++ fmt row.median_brightness_mag_arcsec2 ++ " mag/arcsec²"),
     InfoItem.para ("Flux Ratio: " ++ fmt row.median_linear_scale_flux_ratio)]
  else if meas_type = "cloudy_nights_brightness" then
    [InfoItem.para "",
     InfoItem.para (fmt row.x_brighter_than_darkest_night_sky ++ "-times brighter than the darkest Night Sky"),
     InfoItem.para ("Median Night Sky Brightness: " ++ fmt row.median_brightness_mag_arcsec2 ++ " mag/arcsec²"),
     InfoItem.para ("Flux Ratio: " ++ fmt row.median_linear_scale_flux_ratio)]
  else if meas_type = "long_term_trends" then
    [InfoItem.para "",
     InfoItem.para ("Rate of Change in Night Sky Brightness compared to a certified Dark Sky Park: " ++ fmt row.Rate_of_Change_vs_Prineville_Reservoir_State_Park),
     InfoItem.para ("Trendline Slope: " ++ fmt row.Regression_Line_Slope_x_10000),
     InfoItem.para ("Percentage Change in Night Sky Brightness per year: " ++ fmt row.Percent_Change_per_year ++ "%"),
     InfoItem.para ("Number of Years of Data: " ++ fmt row.Number_of_Years_of_Data)]
  else if meas_type = "milky_way_visibility" then
    [InfoItem.para "",
     InfoItem.para ("Ratio Index: " ++ fmt row.ratio_index)]
  else if meas_type = "% clear nights" then
    [InfoItem.para "",
     InfoItem.para ("Percentage of Clear (no clouds) nights: " ++ fmt row.percent_clear_night_samples_all_months ++ "%")]
  else [])

/-- Embedding of `_get_site_info_text`: select the rows whose `site_name` is
in `clicked_sites` (`df["site_name"].isin(clicked_sites)`) and concatenate
their detail blocks; a site name absent from the frame contributes nothing. -/
def get_site_info_text (df : List SiteRow) (meas_type : String)
    (clicked_sites : List String) : List InfoItem :=
  (df.filter fun r => decide (r.site_name ∈ clicked_sites)).flatMap (site_info_block meas_type)

/-! Helper lemmas about the colour-binning engine. -/

theorem chain_threshold_head (t : ColormapRow) (T : List ColormapRow)
    (h : List.Chain' (fun a b : ColormapRow => a.threshold < b.threshold) (t :: T)) :
    ∀ r ∈ T, t.threshold < r.threshold := by
  induction T generalizing t with
  | nil => simp
  | cons u us ih =>
    intro r hr
    have h1 : t.threshold < u.threshold := (List.chain'_cons.mp h).1
    rcases List.mem_cons.mp hr with h2 | h2
    · rw [h2]; exact h1
    · exact lt_trans h1 (ih u (List.chain'_cons.mp h).2 r h2)

theorem foldl_min_of_le (x : ℚ) (xs : List ℚ) (h : ∀ y ∈ xs, x ≤ y) :
    xs.foldl min x = x := by
  induction xs generalizing x with
  | nil => rfl
  | cons y ys ih =>
    have hxy : min x y = x := min_eq_left (h y (List.mem_cons_self y ys))
    calc (y :: ys).foldl min x = ys.foldl min (min x y) := rfl
    _ = ys.foldl min x := by rw [hxy]
    _ = x := ih x fun z hz => h z (List.mem_cons_of_mem y hz)

theorem foldl_min_mem (x : ℚ) (xs : List ℚ) : xs.foldl min x ∈ x :: xs := by
  induction xs generalizing x with
  | nil => exact List.mem_cons_self x []
  | cons y ys ih =>
    have h2 := ih (min x y)
    rcases List.mem_cons.mp h2 with h3 | h3
    · show ys.foldl min (min x y) ∈ x :: y :: ys
      rw [h3]
      rcases min_choice x y with h4 | h4 <;> rw [h4]
      · exact List.mem_cons_self x (y :: ys)
      · exact List.mem_cons_of_mem x (List.mem_cons_self y ys)
    · exact List.mem_cons_of_mem x (List.mem_cons_of_mem y h3)

theorem foldl_max_mem (x : ℚ) (xs : List ℚ) : xs.foldl max x ∈ x :: xs := by
  induction xs generalizing x with
  | nil => exact List.mem_cons_self x []
  | cons y ys ih =>
    have h2 := ih (max x y)
    rcases List.mem_cons.mp h2 with h3 | h3
    · show ys.foldl max (max x y) ∈ x :: y :: ys
      rw [h3]
      rcases max_choice x y with h4 | h4 <;> rw [h4]
      · exact List.mem_cons_self x (y :: ys)
      · exact List.mem_cons_of_mem x (List.mem_cons_self y ys)
    · exact List.mem_cons_of_mem x (List.mem_cons_of_mem y h3)

theorem above_bins_cons_of_ge (t : ColormapRow) (l : List ColormapRow) (v : PFloat)
    (hv : PFloat.lt v (PFloat.val t.threshold) = false) :
    above_bins_of (t :: l) v = above_bins_of l v := by
  simp [above_bins_of, List.filter_cons, hv]

theorem above_bins_all (l : List ColormapRow) (v : ℚ)
    (hall : ∀ r ∈ l, v < r.threshold) :
    above_bins_of l (PFloat.val v) = l.map fun r => r.threshold := by
  unfold above_bins_of
  rw [List.filter_eq_self.mpr]
  intro a ha
  simp [PFloat.lt, hall a ha]

theorem site_color_bin_mem (l : List ColormapRow) (v : PFloat) (b : ℚ)
    (h : site_color_bin_of l v = some b) : ∃ r ∈ l, r.threshold = b := by
  unfold site_color_bin_of at h
  by_cases hemp : (above_bins_of l v).isEmpty
  · rw [if_pos hemp] at h
    cases l with
    | nil => simp [q_max] at h
    | cons x xs =>
      have hb : (xs.map fun r => r.threshold).foldl max x.threshold = b := by
        simpa [q_max] using h
      have hmem := foldl_max_mem x.threshold (xs.map fun r => r.threshold)
      rw [hb] at hmem
      rcases List.mem_cons.mp hmem with h1 | h1
      · exact ⟨x, List.mem_cons_self x xs, h1.symm⟩
      · rcases List.mem_map.mp h1 with ⟨r, hr, hrt⟩
        exact ⟨r, List.mem_cons_of_mem x hr, hrt⟩
  · rw [if_neg hemp] at h
    cases habv : above_bins_of l v with
    | nil => rw [habv] at h; simp [q_min] at h
    | cons x xs =>
      rw [habv] at h
      have hb : xs.foldl min x = b := by simpa [q_min] using h
      have hmem := foldl_min_mem x xs
      rw [hb] at hmem
      have hmem2 : b ∈ above_bins_of l v := by rw [habv]; exact hmem
      have hmem3 : ∃ a, (a ∈ l ∧ PFloat.lt v (PFloat.val a.threshold) = true) ∧ a.threshold = b := by
        simpa [above_bins_of] using hmem2
      rcases hmem3 with ⟨r, ⟨hr, _⟩, hrt⟩
      exact ⟨r, hr, hrt⟩

theorem site_color_bin_skip (t u : ColormapRow) (us : List ColormapRow)
    (hlt : t.threshold < u.threshold) (v : PFloat)
    (hv : PFloat.lt v (PFloat.val t.threshold) = false) :
    site_color_bin_of (t :: u :: us) v = site_color_bin_of (u :: us) v := by
  unfold site_color_bin_of
  rw [above_bins_cons_of_ge t (u :: us) v hv]
  by_cases hemp : (above_bins_of (u :: us) v).isEmpty
  · rw [if_pos hemp, if_pos hemp]
    show some (((u.threshold :: us.map fun r => r.threshold)).foldl max t.threshold)
      = some ((us.map fun r => r.threshold).foldl max u.threshold)
    have h1 : ((u.threshold :: us.map fun r => r.threshold)).foldl max t.threshold
        = (us.map fun r => r.threshold).foldl max (max t.threshold u.threshold) := rfl
    rw [h1, max_eq_right hlt.le]
  · rw [if_neg hemp, if_neg hemp]

theorem bin_color_value_skip (t u : ColormapRow) (us : List ColormapRow)
    (hs : List.Chain' (fun a b : ColormapRow => a.threshold < b.threshold) (t :: u :: us))
    (v : PFloat) (hv : PFloat.lt v (PFloat.val t.threshold) = false) :
    bin_color_value (t :: u :: us) v = bin_color_value (u :: us) v := by
  have hlt : t.threshold < u.threshold := (List.chain'_cons.mp hs).1
  have hhead := chain_threshold_head t (u :: us) hs
  unfold bin_color_value
  rw [site_color_bin_skip t u us hlt v hv]
  cases hb : site_color_bin_of (u :: us) v with
  | none => rfl
  | some b =>
    rcases site_color_bin_mem (u :: us) v b hb with ⟨r, hr, hrt⟩
    have hne : t.threshold ≠ b := by
      rw [← hrt]
      exact ne_of_lt (hhead r hr)
    show Option.map rgba_of (List.find? (fun r => decide (r.threshold = b)) (t :: u :: us))
      = Option.map rgba_of (List.find? (fun r => decide (r.threshold = b)) (u :: us))
    rw [List.find?_cons_of_neg _ (by simp [hne])]

theorem bin_color_value_head (t : ColormapRow) (T : List ColormapRow)
    (hs : List.Chain' (fun a b : ColormapRow => a.threshold < b.threshold) (t :: T))
    (v : ℚ) (hv : v < t.threshold) :
    bin_color_value (t :: T) (PFloat.val v) = some (rgba_of t) := by
  have hall : ∀ r ∈ t :: T, v < r.threshold := by
    intro r hr
    rcases List.mem_cons.mp hr with h | h
    · rw [h]; exact hv
    · exact lt_trans hv (chain_threshold_head t T hs r h)
  have habove := above_bins_all (t :: T) v hall
  have hmin : q_min ((t :: T).map fun r => r.threshold) = some t.threshold := by
    show some ((T.map fun r => r.threshold).foldl min t.threshold) = some t.threshold
    congr 1
    refine foldl_min_of_le _ _ ?_
    intro y hy
    rcases List.mem_map.mp hy with ⟨r, hr, hrt⟩
    rw [← hrt]
    exact (chain_threshold_head t T hs r hr).le
  have hbin : site_color_bin_of (t :: T) (PFloat.val v) = some t.threshold := by
    unfold site_color_bin_of
    rw [habove]
    have hne : (((t :: T).map fun r => r.threshold).isEmpty) = false := rfl
    rw [hne, if_neg (by simp)]
    exact hmin
  unfold bin_color_value
  rw [hbin]
  show Option.map rgba_of (List.find? (fun r => decide (r.threshold = t.threshold)) (t :: T))
    = some (rgba_of t)
  rw [List.find?_cons_of_pos _ (by simp)]
  rfl

theorem spec_bin_row_head (t : ColormapRow) (T : List ColormapRow) (v : ℚ)
    (hv : v < t.threshold) : spec_bin_row t T v = t := by
  unfold spec_bin_row next_bin_row
  rw [List.find?_cons_of_pos _ (by simp [hv])]

theorem spec_bin_row_cons (t u : ColormapRow) (us : List ColormapRow) (v : ℚ)
    (hv : ¬(v < t.threshold)) :
    spec_bin_row t (u :: us) v = spec_bin_row u us v := by
  unfold spec_bin_row next_bin_row
  rw [List.find?_cons_of_neg _ (by simp [hv])]
  cases (u :: us).find? fun r => decide (v < r.threshold) with
  | none => rfl
  | some r => rfl

theorem bin_color_value_nan (t : ColormapRow) (T : List ColormapRow)
    (hs : List.Chain' (fun a b : ColormapRow => a.threshold < b.threshold) (t :: T)) :
    bin_color_value (t :: T) PFloat.nan = some (rgba_of (lastD t T)) := by
  induction T generalizing t with
  | nil =>
    show bin_color_value [t] PFloat.nan = some (rgba_of t)
    unfold bin_color_value site_color_bin_of above_bins_of
    simp [PFloat.lt, q_max, List.find?]
  | cons u us ih =>
    rw [bin_color_value_skip t u us hs PFloat.nan rfl]
    exact ih u (List.chain'_cons.mp hs).2

/-! Helper lemmas about the insertion sort used to model `sort_values`. -/

theorem mem_insertLe {α : Type} (le : α → α → Bool) (x a : α) (l : List α) :
    a ∈ insertLe le x l ↔ a = x ∨ a ∈ l := by
  induction l with
  | nil => simp [insertLe]
  | cons y ys ih =>
    by_cases h : le x y = true
    · rw [insertLe, if_pos h]
      simp [List.mem_cons]
    · rw [insertLe, if_neg h]
      simp only [List.mem_cons, ih]
      tauto

theorem pairwise_insertLe {α : Type} (le : α → α → Bool)
    (htot : ∀ a b, le a b = true ∨ le b a = true)
    (htrans : ∀ a b c, le a b = true → le b c = true → le a c = true)
    (x : α) (l : List α) (h : l.Pairwise fun a b => le a b = true) :
    (insertLe le x l).Pairwise fun a b => le a b = true := by
  induction l with
  | nil => simp [insertLe]
  | cons y ys ih =>
    rcases List.pairwise_cons.mp h with ⟨hy, hys⟩
    by_cases hxy : le x y = true
    · rw [insertLe, if_pos hxy]
      refine List.pairwise_cons.mpr ⟨?_, h⟩
      intro a ha
      rcases List.mem_cons.mp ha with h1 | h1
      · rw [h1]; exact hxy
      · exact htrans x y a hxy (hy a h1)
    · rw [insertLe, if_neg hxy]
      refine List.pairwise_cons.mpr ⟨?_, ih hys⟩
      intro a ha
      rcases (mem_insertLe le x a ys).mp ha with h1 | h1
      · rw [h1]
        rcases htot x y with h2 | h2
        · exact absurd h2 hxy
        · exact h2
      · exact hy a h1

theorem pairwise_isortBy {α : Type} (le : α → α → Bool)
    (htot : ∀ a b, le a b = true ∨ le b a = true)
    (htrans : ∀ a b c, le a b = true → le b c = true → le a c = true)
    (l : List α) :
    (isortBy le l).Pairwise fun a b => le a b = true := by
  induction l with
  | nil => simp [isortBy]
  | cons x xs ih =>
    rw [isortBy]
    exact pairwise_insertLe le htot htrans x _ ih

theorem mem_isortBy {α : Type} (le : α → α → Bool) (a : α) (l : List α) :
    a ∈ isortBy le l ↔ a ∈ l := by
  induction l with
  | nil => simp [isortBy]
  | cons x xs ih =>
    rw [isortBy, mem_insertLe]
    simp [List.mem_cons, ih]

theorem mem_sort_values (df : List ChartRow) (c : String) (asc : Bool) (r : ChartRow) :
    r ∈ sort_values df c asc ↔ r ∈ df := by
  unfold sort_values
  cases asc <;> simp [mem_isortBy]

/-! Concrete data used as test inputs and counterexamples. -/

/-- Example bin table of the specification, first bin: threshold 10, red. -/
def bin10 : ColormapRow := { threshold := 10, red := 255, green := 0, blue := 0 }

/-- Example bin table of the specification, second bin: threshold 20, yellow. -/
def bin20 : ColormapRow := { threshold := 20, red := 255, green := 255, blue := 0 }

/-- Example bin table of the specification, third bin: threshold 30, green. -/
def bin30 : ColormapRow := { threshold := 30, red := 0, green := 128, blue := 0 }

/-- A data row whose colour-binning value is missing. -/
def nanRow : DataRow := { site_name := "NaN Site", value := PFloat.nan }

/-- A relayout payload requesting zoom 15 and center (45, -120). -/
def rd_zoom15 : RelayoutData :=
  { mapbox_zoom := some 15, map_zoom := none
    mapbox_center := some { lat := some 45, lon := some (-120) }
    mapbox_center_lat := none, mapbox_center_lon := none, map_center := none }

/-- A one-row processed data frame holding only the site "SiteA". -/
def siteA_row : SiteRow :=
  { site_name := "SiteA", DarkSkyCertified := "NO", DarkSkyQualified := "YES"
    x_brighter_than_darkest_night_sky := 2, bortle_sky_level := 3
    median_brightness_mag_arcsec2 := 43/2, median_linear_scale_flux_ratio := 2
    Rate_of_Change_vs_Prineville_Reservoir_State_Park := 0
    Regression_Line_Slope_x_10000 := 0, Percent_Change_per_year := 0
    Number_of_Years_of_Data := 0, ratio_index := 1
    percent_clear_night_samples_all_months := 50 }

/-- Data frame containing only `siteA_row`. -/
def df_siteA : List SiteRow := [siteA_row]

/-- Two chart rows with ratio_index 1 and 2, in repository load order. -/
def df_ratio : List ChartRow :=
  [{ site_name := some "SiteA", cols := [("ratio_index", PFloat.val 1)] },
   { site_name := some "SiteB", cols := [("ratio_index", PFloat.val 2)] }]

theorem chain3_thresholds (a b c : ColormapRow) (h1 : a.threshold < b.threshold)
    (h2 : b.threshold < c.threshold) :
    List.Chain' (fun x y : ColormapRow => x.threshold < y.threshold) [a, b, c] :=
  List.Chain.cons h1 (List.Chain.cons h2 List.Chain.nil)

/-! Claim theorems. -/

/-- C1: processing a refresh trigger yields, for every prior selection state,
no highlight (the clicked-sites store reset to none), the stores' default
viewport and cleared pending click payloads on all three views. The zoom the
callback resets to is 5 - the value the zoom store is also initialised with -
although the comment on that store announces a default of 6; the last
conjunct records the divergence from the claimed default zoom 6. -/
theorem c1_refresh_resets (rd : Option RelayoutData) (zoom : ℚ) (center : ℚ × ℚ)
    (mc : Option MapClickData) (bc : Option BarClickData) (sc : Option ScatterClickData)
    (clicked : Option (List String)) :
    update_zoom_and_center (some "refresh-btn") rd zoom center = (5, (44, -121), false) ∧
    update_clicked_sites (some "refresh-btn") mc bc sc clicked = (none, none, none, none) ∧
    (5 : ℚ) ≠ 6 := by
  refine ⟨?_, ?_, by norm_num⟩
  · simp [update_zoom_and_center]
  · simp [update_clicked_sites]

/-- C1 witness: the refresh reset applied to the concrete prior state of the
claim (zoom 8, center (45, -120), highlight SiteA). -/
theorem c1_refresh_resets_witness :
    update_zoom_and_center (some "refresh-btn") none 8 (45, -120) = (5, (44, -121), false) ∧
    update_clicked_sites (some "refresh-btn") none none none (some ["SiteA"])
      = (none, none, none, none) ∧
    (5 : ℚ) ≠ 6 :=
  c1_refresh_resets none 8 (45, -120) none none none (some ["SiteA"])

/-- C2: for every bin table with strictly increasing thresholds and every
numeric value, the colour-binning lookup returns the colour of the bin of the
smallest threshold strictly greater than the value - so a value exactly equal
to a threshold resolves to the next bin up - and the colour of the last
(maximum-threshold) bin when the value is at or above the maximum threshold;
no such value is an error. -/
theorem c2_bin_color_ceiling (t : ColormapRow) (T : List ColormapRow)
    (hs : List.Chain' (fun a b : ColormapRow => a.threshold < b.threshold) (t :: T))
    (v : ℚ) :
    bin_color_value (t :: T) (PFloat.val v) = some (rgba_of (spec_bin_row t T v)) := by
  induction T generalizing t with
  | nil =>
    by_cases hv : v < t.threshold
    · rw [bin_color_value_head t [] hs v hv, spec_bin_row_head t [] v hv]
    · have hvb : PFloat.lt (PFloat.val v) (PFloat.val t.threshold) = false := by
        simp [PFloat.lt, hv]
      have hspec : spec_bin_row t [] v = t := by
        unfold spec_bin_row next_bin_row
        rw [List.find?_cons_of_neg _ (by simp [hv])]
        rfl
      rw [hspec]
      unfold bin_color_value site_color_bin_of above_bins_of
      simp [hvb, q_max, List.find?]
  | cons u us ih =>
    by_cases hv : v < t.threshold
    · rw [bin_color_value_head t (u :: us) hs v hv, spec_bin_row_head t (u :: us) v hv]
    · have hvb : PFloat.lt (PFloat.val v) (PFloat.val t.threshold) = false := by
        simp [PFloat.lt, hv]
      rw [bin_color_value_skip t u us hs (PFloat.val v) hvb, spec_bin_row_cons t u us v hv]
      exact ih u (List.chain'_cons.mp hs).2

/-- C2 witness: on the specification's example table
[(10, red), (20, yellow), (30, green)], the value 10 - a tie with the first
threshold - resolves to the next bin up, yellow. -/
theorem c2_bin_color_ceiling_witness :
    bin_color_value [bin10, bin20, bin30] (PFloat.val 10) = some "rgba(255, 255, 0, 1)" := by
  have h := c2_bin_color_ceiling bin10 [bin20, bin30]
    (chain3_thresholds bin10 bin20 bin30 (by decide) (by decide)) 10
  rw [h]
  rfl

/-- C3: a later single-origin click trigger fully replaces the highlight set
rather than merging with it: for every prior store value, after a map click
selecting the two sites a and b, a bar click on site c leaves exactly the
singleton [c] in the clicked-sites store (the claim's instance is a = SiteA,
b = SiteB, c = SiteC). -/
theorem c3_click_replaces (prior : Option (List String)) (a b c : String) :
    (update_clicked_sites (some "bar-chart") none (some { y := c }) none
      (update_clicked_sites (some "oregon-map") (some { customdata := [a, b] }) none none
        prior).1).1 = some [c] := by
  simp [update_clicked_sites]

/-- C4 counterexample: a viewport change requesting zoom 15 and center
(45, -120) from stored zoom 6 and center (44, -121) yields the clamped zoom
and the raised flag, but the output center is the prior stored (44, -121),
not the requested (45, -120) - the requested center is not applied. -/
theorem c4_center_discarded :
    update_zoom_and_center (some "oregon-map") (some rd_zoom15) 6 (44, -121)
      = (10, (44, -121), true) ∧
    relayout_center rd_zoom15 (44, -121) = (45, -120) ∧
    ((44 : ℚ), (-121 : ℚ)) ≠ ((45 : ℚ), (-120 : ℚ)) := by
  refine ⟨by decide, by decide, by decide⟩

/-- C4 amended: for every viewport-change event whose requested zoom exceeds
10, the output zoom is clamped to 10 and the max-zoom-exceeded flag is set,
and the output center is the previously stored center - the requested center
is discarded, not applied. -/
theorem c4_zoom_clamp (rd : RelayoutData) (current_zoom : ℚ) (current_center : ℚ × ℚ)
    (hz : 10 < relayout_zoom rd current_zoom) :
    update_zoom_and_center (some "oregon-map") (some rd) current_zoom current_center
      = (10, current_center, true) := by
  simp [update_zoom_and_center, gt_iff_lt, hz]

/-- C4 witness: the clamp theorem applied to the concrete zoom-15 request. -/
theorem c4_zoom_clamp_witness :
    update_zoom_and_center (some "oregon-map") (some rd_zoom15) 6 (44, -121)
      = (10, (44, -121), true) :=
  c4_zoom_clamp rd_zoom15 6 (44, -121) (by decide)

/-- C5: a category change alone - a trigger other than the map, the two
charts and the refresh button - leaves highlighted sites, zoom and center all
unchanged, for every stored state (in particular zoom 8 and center
(45, -120)). -/
theorem c5_category_change_noop (rd : Option RelayoutData) (mc : Option MapClickData)
    (bc : Option BarClickData) (sc : Option ScatterClickData)
    (zoom : ℚ) (center : ℚ × ℚ) (clicked : Option (List String)) :
    update_zoom_and_center (some "meas-type-radio") rd zoom center = (zoom, center, false) ∧
    (update_clicked_sites (some "meas-type-radio") mc bc sc clicked).1 = clicked := by
  constructor
  · simp [update_zoom_and_center]
  · simp [update_clicked_sites]

/-- C6 counterexample: a map click whose payload names the site "Ghost",
absent from the one-site data frame, is not ignored by the reducer as a
no-op - the clicked-sites store is set to the nonexistent site instead of
keeping its prior value SiteA. -/
theorem c6_stale_click_stored :
    ("Ghost" ∈ df_siteA.map SiteRow.site_name → False) ∧
    (update_clicked_sites (some "oregon-map") (some { customdata := ["Ghost"] }) none none
      (some ["SiteA"])).1 = some ["Ghost"] ∧
    some ["Ghost"] ≠ some ["SiteA"] := by
  refine ⟨by decide, ?_, by decide⟩
  simp [update_clicked_sites]

/-- C6 amended: the reducer stores the clicked payload without validating it
against the current category's data, so the highlight state does hold the
absent names; the downstream site-detail rendering filters rows by membership
of the stored names, so a stale click produces an empty detail block and
never fails. -/
theorem c6_stale_click_harmless (df : List SiteRow) (names : List String)
    (prior : Option (List String)) (meas_type : String)
    (habs : ∀ n ∈ names, n ∉ df.map SiteRow.site_name) :
    (update_clicked_sites (some "oregon-map") (some { customdata := names }) none none
      prior).1 = some names ∧
    get_site_info_text df meas_type names = [] := by
  constructor
  · simp [update_clicked_sites]
  · have hfil : (df.filter fun r => decide (r.site_name ∈ names)) = [] := by
      rw [List.filter_eq_nil_iff]
      intro r hr hcon
      have hmem : r.site_name ∈ names := by simpa using hcon
      exact habs r.site_name hmem (List.mem_map_of_mem SiteRow.site_name hr)
    unfold get_site_info_text
    rw [hfil]
    rfl

/-- C6 witness: the amended behaviour at the concrete stale click "Ghost"
against the one-site data frame. -/
theorem c6_stale_click_harmless_witness :
    (update_clicked_sites (some "oregon-map") (some { customdata := ["Ghost"] }) none none
      (some ["SiteA"])).1 = some ["Ghost"] ∧
    get_site_info_text df_siteA "clear_nights_brightness" ["Ghost"] = [] :=
  c6_stale_click_harmless df_siteA ["Ghost"] (some ["SiteA"]) "clear_nights_brightness"
    (by decide)

/-- C7 counterexample: ranking two rows with ratio_index values 1 and 2 by
the metric column ratio_index returns the keys in the order [2, 1], which is
not ascending. -/
theorem c7_not_ascending :
    (prepare_chart_data df_ratio "ratio_index").map (fun r => keyQ r "ratio_index")
      = [2, 1] ∧
    ¬((2 : ℚ) ≤ 1) := by
  refine ⟨by decide, by norm_num⟩

/-- C7 amended: the ranking pipeline drops rows with a missing metric or site
name and returns the remaining rows ordered by the metric column - ascending
exactly when the metric column is median_brightness_mag_arcsec2, descending
for every other metric column. -/
theorem c7_sorted_by_direction (sites_df : List ChartRow) (y_col : String) :
    (∀ r ∈ prepare_chart_data sites_df y_col, (ChartRow.get r y_col).isNan = false) ∧
    List.Pairwise
      (fun a b => if y_col = "median_brightness_mag_arcsec2"
        then keyQ a y_col ≤ keyQ b y_col else keyQ b y_col ≤ keyQ a y_col)
      (prepare_chart_data sites_df y_col) := by
  constructor
  · intro r hr
    unfold prepare_chart_data at hr
    rw [mem_sort_values] at hr
    have h2 := (List.mem_filter.mp hr).2
    simp only [Bool.and_eq_true, Bool.not_eq_true'] at h2
    exact h2.1
  · simp only [prepare_chart_data, sort_values]
    by_cases hcase : y_col = "median_brightness_mag_arcsec2"
    · rw [if_pos (by simp [hcase])]
      have hp := pairwise_isortBy (fun a b => decide (keyQ a y_col ≤ keyQ b y_col))
        (fun a b => by
          rcases le_total (keyQ a y_col) (keyQ b y_col) with h | h
          · exact Or.inl (by simpa using h)
          · exact Or.inr (by simpa using h))
        (fun a b c h1 h2 => by
          simp only [decide_eq_true_eq] at h1 h2 ⊢
          exact le_trans h1 h2)
        (sites_df.filter fun r => !(ChartRow.get r y_col).isNan && r.site_name.isSome)
      refine hp.imp ?_
      intro a b hab
      rw [if_pos hcase]
      simpa using hab
    · rw [if_neg (by simp [hcase])]
      have hp := pairwise_isortBy (fun a b => decide (keyQ b y_col ≤ keyQ a y_col))
        (fun a b => by
          rcases le_total (keyQ b y_col) (keyQ a y_col) with h | h
          · exact Or.inl (by simpa using h)
          · exact Or.inr (by simpa using h))
        (fun a b c h1 h2 => by
          simp only [decide_eq_true_eq] at h1 h2 ⊢
          exact le_trans h2 h1)
        (sites_df.filter fun r => !(ChartRow.get r y_col).isNan && r.site_name.isSome)
      refine hp.imp ?_
      intro a b hab
      rw [if_neg hcase]
      simpa using hab

/-- C7 witness: the amended ordering at the concrete two-row frame ranked by
ratio_index. -/
theorem c7_sorted_by_direction_witness :
    (∀ r ∈ prepare_chart_data df_ratio "ratio_index",
      (ChartRow.get r "ratio_index").isNan = false) ∧
    List.Pairwise
      (fun a b => if ("ratio_index" : String) = "median_brightness_mag_arcsec2"
        then keyQ a "ratio_index" ≤ keyQ b "ratio_index"
        else keyQ b "ratio_index" ≤ keyQ a "ratio_index")
      (prepare_chart_data df_ratio "ratio_index") :=
  c7_sorted_by_direction df_ratio "ratio_index"

/-- C9: the configuration lookup succeeds exactly on the enumerated
measurement-type keys; on every other key it raises the ValueError with the
invalid-measurement-type message. -/
theorem c9_config_lookup (k : String) :
    (isOkE (get_meas_type_config k) = true ↔ k ∈ meas_type_keys) ∧
    (k ∉ meas_type_keys →
      get_meas_type_config k = Except.error ("Invalid measurement type: " ++ k)) := by
  by_cases h : k ∈ meas_type_keys
  · have hok : isOkE (get_meas_type_config k) = true := by
      have h5 : k = "clear_nights_brightness" ∨ k = "cloudy_nights_brightness" ∨
          k = "long_term_trends" ∨ k = "milky_way_visibility" ∨ k = "% clear nights" := by
        simpa [meas_type_keys] using h
      rcases h5 with h1 | h1 | h1 | h1 | h1 <;> rw [h1] <;> rfl
    exact ⟨⟨fun _ => h, fun _ => hok⟩, fun hn => absurd h hn⟩
  · have hkeys : ∀ p ∈ meas_type_dict, p.1 ∈ meas_type_keys := by decide
    have hfind : meas_type_dict.find? (fun p => decide (p.1 = k)) = none := by
      rw [List.find?_eq_none]
      intro p hp
      simp only [decide_eq_true_eq]
      intro he
      have hp1 : p.1 ∈ meas_type_keys := hkeys p hp
      rw [he] at hp1
      exact h hp1
    have herr : get_meas_type_config k = Except.error ("Invalid measurement type: " ++ k) := by
      unfold get_meas_type_config
      rw [hfind]
    refine ⟨⟨fun hok => ?_, fun hk => absurd hk h⟩, fun _ => herr⟩
    rw [herr] at hok
    simp [isOkE] at hok

/-- C9 witness: a valid key succeeds and an invalid key yields the error. -/
theorem c9_config_lookup_witness :
    isOkE (get_meas_type_config "milky_way_visibility") = true ∧
    get_meas_type_config "not a question"
      = Except.error ("Invalid measurement type: " ++ "not a question") :=
  ⟨(c9_config_lookup "milky_way_visibility").1.mpr (by decide),
   (c9_config_lookup "not a question").2 (by decide)⟩

/-- C10: colour assignment is total over missing values - every row whose
value column is NaN still receives a colour, namely the last
(maximum-threshold) bin's colour, and the lookup does not fail. -/
theorem c10_nan_gets_last_color (t : ColormapRow) (T : List ColormapRow)
    (hs : List.Chain' (fun a b : ColormapRow => a.threshold < b.threshold) (t :: T))
    (df : List DataRow) :
    ∀ p ∈ add_color_map_column df (t :: T), p.1.value.isNan = true →
      p.2 = some (rgba_of (lastD t T)) := by
  intro p hp hnan
  rcases List.mem_map.mp hp with ⟨row, hrow, hpe⟩
  rw [← hpe] at hnan ⊢
  have hnan2 : row.value.isNan = true := hnan
  have hvn : row.value = PFloat.nan := by
    cases hrv : row.value with
    | nan => rfl
    | val q => rw [hrv] at hnan2; simp [PFloat.isNan] at hnan2
  show bin_color_value (t :: T) row.value = some (rgba_of (lastD t T))
  rw [hvn]
  exact bin_color_value_nan t T hs

/-- C10 witness: on the example table, a missing value receives the last
bin's colour, green. -/
theorem c10_nan_gets_last_color_witness :
    bin_color_value [bin10, bin20, bin30] PFloat.nan = some "rgba(0, 128, 0, 1)" := by
  have h := c10_nan_gets_last_color bin10 [bin20, bin30]
    (chain3_thresholds bin10 bin20 bin30 (by decide) (by decide)) [nanRow]
    (nanRow, bin_color_value [bin10, bin20, bin30] PFloat.nan)
    (List.mem_cons_self _ _) rfl
  have h2 : bin_color_value [bin10, bin20, bin30] PFloat.nan
      = some (rgba_of (lastD bin10 [bin20, bin30])) := h
  rw [h2]
  rfl
